import Mathlib

set_option maxHeartbeats 1000000

/- Shallow embedding of the real-estate search core of the repository:
   the frontend search utilities (frontend/lib/searchUtils.ts), the page-level
   search submission handlers (frontend/app/traditional/page.tsx,
   frontend/app/intermediate_ai/page.tsx), and the backend search core
   (interpret / filter / paginate / aggregate), which is not present under
   src/ and is therefore modelled from the spec. -/

/-! ### Character-level model of the JS string primitives -/

/-- ASCII lower-casing of one character, as JS `String.prototype.toLowerCase`
acts on the basic latin range: codepoints 65..90 (A-Z) map to 97..122 (a-z),
everything else is unchanged. -/
def charToLower (c : Char) : Char :=
  if 65 ≤ c.toNat ∧ c.toNat ≤ 90 then Char.ofNat (c.toNat + 32) else c

/-- ASCII upper-casing of one character, as JS `String.prototype.toUpperCase`
acts on the basic latin range: codepoints 97..122 (a-z) map to 65..90 (A-Z). -/
def charToUpper (c : Char) : Char :=
  if 97 ≤ c.toNat ∧ c.toNat ≤ 122 then Char.ofNat (c.toNat - 32) else c

/-- JS regex word character `\w`, i.e. `[A-Za-z0-9_]`. -/
def isWordChar (c : Char) : Bool :=
  (decide (48 ≤ c.toNat) && decide (c.toNat ≤ 57)) ||
  (decide (65 ≤ c.toNat) && decide (c.toNat ≤ 90)) ||
  (decide (97 ≤ c.toNat) && decide (c.toNat ≤ 122)) ||
  (c.toNat == 95)

/-- The per-character pass of
`str.toLowerCase().replace(/\b\w/g, (char) => char.toUpperCase())`:
upper-case every word character that is not preceded by a word character
(`\b\w` matches exactly there).  The Bool argument records whether the
previous character was a word character (false at the start of the string). -/
def titleCaseChars : Bool → List Char → List Char
  | _, [] => []
  | prevWord, c :: rest =>
    (if isWordChar c && !prevWord then charToUpper c else c) ::
      titleCaseChars (isWordChar c) rest

/-- Embedding of `toTitleCase` from frontend/lib/searchUtils.ts:
`str.toLowerCase().replace(/\b\w/g, (char) => char.toUpperCase())`. -/
def toTitleCase (s : String) : String :=
  ⟨titleCaseChars false (s.data.map charToLower)⟩

theorem toNat_charOfNat {n : ℕ} (h : n < 55296) : (Char.ofNat n).toNat = n := by
  rw [Char.ofNat, dif_pos (Or.inl h)]
  rfl

theorem char_eq_of_toNat_eq {a b : Char} (h : a.toNat = b.toNat) : a = b := by
  rw [← Char.ofNat_toNat a, ← Char.ofNat_toNat b, h]

theorem charToLower_charToLower (c : Char) :
    charToLower (charToLower c) = charToLower c := by
  unfold charToLower
  split
  · rename_i h
    rw [toNat_charOfNat (by omega), if_neg (by omega)]
  · rfl

theorem charToLower_charToUpper (c : Char) :
    charToLower (charToUpper c) = charToLower c := by
  unfold charToUpper
  split
  · rename_i h
    apply char_eq_of_toNat_eq
    unfold charToLower
    rw [toNat_charOfNat (by omega)]
    rw [if_pos (by omega), if_neg (by omega)]
    rw [toNat_charOfNat (by omega)]
    omega
  · rfl

theorem map_charToLower_titleCaseChars (prevWord : Bool) (l : List Char) :
    (titleCaseChars prevWord l).map charToLower = l.map charToLower := by
  induction l generalizing prevWord with
  | nil => rfl
  | cons c rest ih =>
    simp only [titleCaseChars, List.map_cons, ih]
    split
    · rw [charToLower_charToUpper]
    · rfl

theorem map_charToLower_idem (l : List Char) :
    (l.map charToLower).map charToLower = l.map charToLower := by
  rw [List.map_map]
  apply List.map_congr_left
  intro c _
  exact charToLower_charToLower c

/-! ### JS numbers and numeral parsing, for the range helpers -/

/-- The values a JS numeric expression takes in the range helpers of
frontend/lib/searchUtils.ts: a natural number, `Infinity`, or `NaN`
(the result of `parseInt` on a non-numeral). -/
inductive JNum where
  | nan : JNum
  | inf : JNum
  | num : ℕ → JNum
deriving DecidableEq, Repr

/-- JS `<` on the values above: any comparison with `NaN` is false,
`Infinity` is greater than every number and not less than itself. -/
def jlt : JNum → JNum → Bool
  | .nan, _ => false
  | _, .nan => false
  | .inf, _ => false
  | .num _, .inf => true
  | .num a, .num b => decide (a < b)

/-- Decimal numeral value of a digit list (helper for `parseIntJ`). -/
def natOfDigits (cs : List Char) : ℕ :=
  cs.foldl (fun acc c => acc * 10 + (c.toNat - 48)) 0

/-- JS `parseInt` as used on the bucket-key halves: a non-empty string of
decimal digits parses to its value, anything else gives `NaN`. -/
def parseIntJ (cs : List Char) : JNum :=
  if cs ≠ [] ∧ cs.all Char.isDigit then .num (natOfDigits cs) else .nan

/-- Embedding of `range.split('-')` on the character list of a bucket key. -/
def splitDash : List Char → List Char → List (List Char)
  | [], acc => [acc.reverse]
  | c :: rest, acc =>
    if c = '-' then acc.reverse :: splitDash rest [] else splitDash rest (c :: acc)

/-! ### frontend/lib/searchUtils.ts: bucket keys and range selection -/

/-- The fixed price bucket keys (`availableRanges` inside
`getSelectedPriceRanges`, and the `price_ranges` facet keys). -/
def availablePriceRanges : List String :=
  ["0-500000", "500000-750000", "750000-1000000", "1000000-1500000", "1500000-999999999"]

/-- The fixed square-footage bucket keys (`availableRanges` inside
`getSelectedSqftRanges`, and the `square_feet_ranges` facet keys). -/
def availableSqftRanges : List String :=
  ["0-800", "800-1200", "1200-1800", "1800-2500", "2500-999999"]

/-- Embedding of `parsePriceRange` from frontend/lib/searchUtils.ts:
`const [min, max] = range.split('-')`, `min: parseInt(min)`,
`max: max === '999999999' ? undefined : parseInt(max)`.
`undefined` on the max side is `none`. -/
def parsePriceRange (range : String) : JNum × Option JNum :=
  let parts := splitDash range.data []
  (parseIntJ (parts.getD 0 []),
   if parts.getD 1 [] = "999999999".data then none else some (parseIntJ (parts.getD 1 [])))

/-- Embedding of `parseSqftRange` from frontend/lib/searchUtils.ts: as `parsePriceRange`
with the open-ended sentinel `999999`. -/
def parseSqftRange (range : String) : JNum × Option JNum :=
  let parts := splitDash range.data []
  (parseIntJ (parts.getD 0 []),
   if parts.getD 1 [] = "999999".data then none else some (parseIntJ (parts.getD 1 [])))

/-- The bounds a bucket key contributes to the overlap test inside
`getSelectedPriceRanges` / `getSelectedSqftRanges`:
`rangeMinNum = parseInt(rangeMin)` and
`rangeMaxNum = rangeMaxStr === sentinel ? Infinity : parseInt(rangeMaxStr)`. -/
def keyBounds (sentinel : List Char) (range : String) : JNum × JNum :=
  let parts := splitDash range.data []
  (parseIntJ (parts.getD 0 []),
   if parts.getD 1 [] = sentinel then .inf else parseIntJ (parts.getD 1 []))

/-- The overlap test of `getSelectedPriceRanges` / `getSelectedSqftRanges`:
`rangeMinNum < effectiveMax && rangeMaxNum > effectiveMin` with
`effectiveMin = min ?? 0` and `effectiveMax = max ?? Infinity`. -/
def rangeSelected (mn mx : Option ℕ) (bounds : JNum × JNum) : Bool :=
  jlt bounds.1 (match mx with | none => .inf | some m => .num m) &&
  jlt (.num (mn.getD 0)) bounds.2

/-- Embedding of `getSelectedPriceRanges` from frontend/lib/searchUtils.ts:
`if (min === undefined && max === undefined) return []`, then filter the
fixed key list by the interval-overlap test. -/
def getSelectedPriceRanges (mn mx : Option ℕ) : List String :=
  if mn = none ∧ mx = none then []
  else availablePriceRanges.filter
    (fun range => rangeSelected mn mx (keyBounds "999999999".data range))

/-- Embedding of `getSelectedSqftRanges` from frontend/lib/searchUtils.ts. -/
def getSelectedSqftRanges (mn mx : Option ℕ) : List String :=
  if mn = none ∧ mx = none then []
  else availableSqftRanges.filter
    (fun range => rangeSelected mn mx (keyBounds "999999".data range))

/-- C10: `toTitleCase` is idempotent: lower-casing the output of
`toTitleCase` recovers the lower-cased input, so a second pass upper-cases
exactly the same word boundaries. -/
theorem toTitleCase_idempotent (s : String) :
    toTitleCase (toTitleCase s) = toTitleCase s := by
  unfold toTitleCase
  congr 1
  show titleCaseChars false ((titleCaseChars false (s.data.map charToLower)).map charToLower)
      = titleCaseChars false (s.data.map charToLower)
  rw [map_charToLower_titleCaseChars, map_charToLower_idem]

/-! ### Whole-string JS primitives used by the submission handlers -/

/-- JS `String.prototype.toLowerCase` (basic latin range). -/
def jsToLower (s : String) : String :=
  ⟨s.data.map charToLower⟩

/-- JS `String.prototype.trim`: strip whitespace from both ends. -/
def jsTrim (s : String) : String :=
  ⟨((s.data.dropWhile Char.isWhitespace).reverse.dropWhile Char.isWhitespace).reverse⟩

/-- The URL parameter updates passed to `updateURL` by the search submission
handlers; `none` is JS `null` (the parameter is removed from the URL). -/
structure URLUpdates where
  q : Option String
  title : Option String
  description : Option String
  page : Option String
  property_type : Option String
  bedrooms : Option String
  min_price : Option String
  max_price : Option String
  min_sqft : Option String
  max_sqft : Option String
  sort : Option String
deriving DecidableEq, Repr

/-- Embedding of `handleSearch` from frontend/app/traditional/page.tsx (the same parameter
construction appears in `handleExampleQueryClick` there and in the
intermediate/advanced pages): on a non-empty query it submits
`q = query.toLowerCase().trim()`, `title = toTitleCase(query.trim())`,
`description = query.toLowerCase().trim()`, `page = '1'`, and clears every
facet filter; on an all-whitespace query it clears all search parameters. -/
def handleSearch (query : String) : URLUpdates :=
  if jsTrim query ≠ "" then
    { q := some (jsTrim (jsToLower query))
      title := some (toTitleCase (jsTrim query))
      description := some (jsTrim (jsToLower query))
      page := some "1"
      property_type := none, bedrooms := none
      min_price := none, max_price := none
      min_sqft := none, max_sqft := none, sort := none }
  else
    { q := none, title := none, description := none
      page := some "1"
      property_type := none, bedrooms := none
      min_price := none, max_price := none
      min_sqft := none, max_sqft := none, sort := none }

/-! ### Data model (frontend/lib/api.ts interfaces) -/

/-- The `property_type` enumeration. -/
inductive PropertyType where
  | house : PropertyType
  | condo : PropertyType
  | apartment : PropertyType
  | townhouse : PropertyType
deriving DecidableEq, Repr

/-- Embedding of the `Property` interface of frontend/lib/api.ts (dates kept as ISO strings). -/
structure Property where
  id : String
  title : String
  description : String
  price : ℕ
  bedrooms : ℕ
  square_feet : ℕ
  property_type : PropertyType
  listing_date : String
  images : List String
  neighborhood : String
  city : String
deriving DecidableEq, Repr

/-- Embedding of the `Facets` interface of frontend/lib/api.ts: four key to count records. -/
structure Facets where
  property_type : List (String × ℕ)
  bedrooms : List (String × ℕ)
  price_ranges : List (String × ℕ)
  square_feet_ranges : List (String × ℕ)
deriving DecidableEq, Repr

/-- Embedding of the `SearchResponse` interface of frontend/lib/api.ts. -/
structure SearchResponse where
  results : List Property
  total : ℕ
  facets : Facets
  did_you_mean : Option String
deriving DecidableEq, Repr

/-- Embedding of the `SearchSummary` interface of frontend/lib/api.ts. -/
structure SearchSummary where
  summary : String
  search_ideas : List String
deriving DecidableEq, Repr

/-! ### frontend/app/intermediate_ai/page.tsx: result/summary state flow -/

/-- The page state touched by `performSearch` in
frontend/app/intermediate_ai/page.tsx (the `useState` cells
`searchResults`, `facets`, `error`, `summary`, `loading`). -/
structure PageState where
  searchResults : Option SearchResponse
  facets : Option Facets
  error : Option String
  summary : Option SearchSummary
  loading : Bool
deriving DecidableEq, Repr

/-- The state updates `performSearch` applies when the search request
succeeds, before any summary handling: `setSearchResults(searchResults)`,
`setFacets(searchResults.facets)`, `setError(null)`, `setLoading(false)`. -/
def applySearchSuccess (st : PageState) (resp : SearchResponse) : PageState :=
  { st with
    searchResults := some resp
    facets := some resp.facets
    error := none
    loading := false }

/-- The summary fetch of `performSearch`: `setSummary(summaryData)` on
success; in the `catch` branch the code logs the error, does NOT set the
error state ("summary is optional"), and runs `setSummary(null)`. -/
def applySummaryOutcome (st : PageState) (outcome : Except String SearchSummary) : PageState :=
  match outcome with
  | .ok s => { st with summary := some s }
  | .error _ => { st with summary := none }

/-- The post-success tail of `performSearch` on a new query
(`isQueryChange` true): deliver the results, then either fetch the summary
(when there are results and an active query/filter) or clear it. -/
def performSearchSuccess (st : PageState) (resp : SearchResponse)
    (fetchSummary : Bool) (outcome : Except String SearchSummary) : PageState :=
  let st1 := applySearchSuccess st resp
  if fetchSummary then applySummaryOutcome st1 outcome
  else { st1 with summary := none }

/-! ### Spec-modelled backend core

The FastAPI backend implementing `interpret`, `filter`, `paginate` and
`aggregate` is not present under src/ (only its frontend callers and the
design documents are), so the definitions below are modelled from the
spec (sections 4.1-4.4) and the agent-prompt document. -/

/-- Modelled from the spec: the `sort` enumeration of the backend search
parameters (relevance | price_asc | price_desc | newest). -/
inductive SortMode where
  | relevance : SortMode
  | price_asc : SortMode
  | price_desc : SortMode
  | newest : SortMode
deriving DecidableEq, Repr

/-- Modelled from the spec: the backend `SearchParameters` record (spec
section 3).  The bedrooms set of canonical strings "0".."5" is modelled by
the corresponding numbers. -/
structure SearchParameters where
  q : String
  title : String
  description : String
  property_type : List PropertyType
  bedrooms : List ℕ
  min_price : Option ℕ
  max_price : Option ℕ
  min_sqft : Option ℕ
  max_sqft : Option ℕ
  sort : SortMode
  page : ℕ
  per_page : ℕ
deriving DecidableEq, Repr

/-- Does the character list `needle` occur at the start of the second list? -/
def startsWithCh : List Char → List Char → Bool
  | [], _ => true
  | _ :: _, [] => false
  | a :: as, b :: bs => (a == b) && startsWithCh as bs

/-- Substring containment on character lists. -/
def containsCh (needle : List Char) : List Char → Bool
  | [] => needle.isEmpty
  | b :: bs => startsWithCh needle (b :: bs) || containsCh needle bs

/-- Split a lower-cased character list into maximal runs of characters
accepted by `keep` (the tokenizer used by the text match and the
interpreter); the second argument accumulates the current token reversed. -/
def tokensAux (keep : Char → Bool) : List Char → List Char → List (List Char)
  | [], acc => if acc.isEmpty then [] else [acc.reverse]
  | c :: rest, acc =>
    if keep c then tokensAux keep rest (c :: acc)
    else if acc.isEmpty then tokensAux keep rest []
    else acc.reverse :: tokensAux keep rest []

/-- Lower-cased word tokens of a string. -/
def wordTokens (s : String) : List (List Char) :=
  tokensAux isWordChar (s.data.map charToLower) []

/-- Modelled from the spec: the free-text condition of the Filter Engine
(spec section 4.2): when the `title` / `description` parameters are
non-empty, each of their tokens must appear (case-insensitively) as a
substring of the property's own title or description. -/
def matchesText (params : SearchParameters) (p : Property) : Bool :=
  (wordTokens params.title ++ wordTokens params.description).all fun t =>
    containsCh t (p.title.data.map charToLower) ||
    containsCh t (p.description.data.map charToLower)

/-- Modelled from the spec: the per-property AND of the Filter Engine's
conditions (spec section 4.2); absent fields impose no constraint,
membership is OR within a set, numeric bounds are inclusive. -/
def matchesParams (params : SearchParameters) (p : Property) : Bool :=
  (params.property_type.isEmpty || decide (p.property_type ∈ params.property_type)) &&
  (params.bedrooms.isEmpty || decide (p.bedrooms ∈ params.bedrooms)) &&
  (match params.min_price with | none => true | some m => decide (m ≤ p.price)) &&
  (match params.max_price with | none => true | some m => decide (p.price ≤ m)) &&
  (match params.min_sqft with | none => true | some m => decide (m ≤ p.square_feet)) &&
  (match params.max_sqft with | none => true | some m => decide (p.square_feet ≤ m)) &&
  matchesText params p

/-- Modelled from the spec: the Filter Engine contract
`filter(catalog, params)` (spec section 4.2), a pure filter preserving
catalog order. -/
def filterCatalog (catalog : List Property) (params : SearchParameters) : List Property :=
  catalog.filter (matchesParams params)

/-- Modelled from the spec: the Ranker/Paginator's
`paginate(sorted, page, per_page)` (spec section 4.3): 1-based page
numbers, slice `[(page-1)*per_page, page*per_page)`. -/
def paginate {α : Type} (sorted : List α) (page per_page : ℕ) : List α :=
  (sorted.drop ((page - 1) * per_page)).take per_page

/-- Modelled from the spec: the fixed price buckets of the Facet Aggregator
(spec section 4.4), inclusive-low / exclusive-high, the last open-ended:
[0,500000), [500000,750000), [750000,1000000), [1000000,1500000),
[1500000,inf). -/
def priceBucketIndex (price : ℕ) : Fin 5 :=
  if price < 500000 then 0
  else if price < 750000 then 1
  else if price < 1000000 then 2
  else if price < 1500000 then 3
  else 4

/-- Modelled from the spec: the fixed square-footage buckets
[0,800), [800,1200), [1200,1800), [1800,2500), [2500,inf). -/
def sqftBucketIndex (sqft : ℕ) : Fin 5 :=
  if sqft < 800 then 0
  else if sqft < 1200 then 1
  else if sqft < 1800 then 2
  else if sqft < 2500 then 3
  else 4

/-- Modelled from the spec: `FacetCounts` (spec section 3), one count per
property type, bedroom count, price bucket and square-footage bucket; the
five bucket keys are those of `availablePriceRanges` /
`availableSqftRanges`, indexed here by their position. -/
structure FacetCounts where
  property_type : PropertyType → ℕ
  bedrooms : ℕ → ℕ
  price_ranges : Fin 5 → ℕ
  square_feet_ranges : Fin 5 → ℕ

/-- Modelled from the spec: the Facet Aggregator contract
`aggregate(matches)` (spec section 4.4), counting purely over the argument
subset. -/
def aggregate (ms : List Property) : FacetCounts :=
  { property_type := fun t => ms.countP (fun p => decide (p.property_type = t))
    bedrooms := fun b => ms.countP (fun p => decide (p.bedrooms = b))
    price_ranges := fun i => ms.countP (fun p => decide (priceBucketIndex p.price = i))
    square_feet_ranges := fun i =>
      ms.countP (fun p => decide (sqftBucketIndex p.square_feet = i)) }

/-! ### Spec-modelled Query Interpreter (spec section 4.1, agent prompt) -/

/-- Modelled from the spec: the `InterpretedQuery` record produced by the
Query Interpreter (spec section 3); all fields absent unless inferred. -/
structure InterpretedQuery where
  title : String
  description : String
  property_type : List PropertyType
  bedrooms : List ℕ
  min_price : Option ℕ
  max_price : Option ℕ
  min_sqft : Option ℕ
  max_sqft : Option ℕ
  sort : SortMode
deriving DecidableEq, Repr

/-- Character list of a lower-case keyword literal. -/
def tk (s : String) : List Char := s.data

/-- The interpreter's tokenizer keeps word characters plus `.` and `-`
so that numeric tokens such as `800k`, `1.5m` and `600k-800k` survive
as single tokens. -/
def queryTokens (s : String) : List (List Char) :=
  tokensAux (fun c => isWordChar c || c = '.' || c = '-') (s.data.map charToLower) []

/-- Modelled from the spec: property-type keyword mapping (spec section
4.1): literal tokens (and their plurals, e.g. "apartments and condos" maps
to both), synonyms "home"/"homes" standing for the house-like types
{house, townhouse} (as in the prompt document's example
"Family home under 800k"), and "studio" implying apartment. -/
def typesOfToken (t : List Char) : List PropertyType :=
  if t = tk "house" ∨ t = tk "houses" then [.house]
  else if t = tk "home" ∨ t = tk "homes" then [.house, .townhouse]
  else if t = tk "condo" ∨ t = tk "condos" then [.condo]
  else if t = tk "apartment" ∨ t = tk "apartments" ∨ t = tk "studio" then [.apartment]
  else if t = tk "townhouse" ∨ t = tk "townhouses" then [.townhouse]
  else []

/-- A token announcing an explicit bedroom count ("N bedroom", "N bed",
"N br"). -/
def bedroomMarker (t : List Char) : Bool :=
  decide (t ∈ [tk "bedroom", tk "bedrooms", tk "bed", tk "beds", tk "br"])

/-- A single-digit token 0..5, the explicit bedroom values. -/
def digitBedroomValue (t : List Char) : Option ℕ :=
  match t with
  | [c] => if 48 ≤ c.toNat ∧ c.toNat ≤ 53 then some (c.toNat - 48) else none
  | _ => none

/-- Modelled from the spec: semantic bedroom terms (spec section 4.1):
"big family"/"large family" to {4,5} (most-specific match first),
"family" to {3,4,5}, "studio"/"cozy" to {1}, "small" to {1,2}. -/
def singleBedrooms (t : List Char) : List ℕ :=
  if t = tk "family" then [3, 4, 5]
  else if t = tk "studio" ∨ t = tk "cozy" then [1]
  else if t = tk "small" then [1, 2]
  else []

def semanticBedrooms : List (List Char) → List ℕ
  | [] => []
  | [t] => singleBedrooms t
  | t :: t2 :: rest =>
    if (t = tk "big" ∨ t = tk "large") ∧ t2 = tk "family" then
      [4, 5] ++ semanticBedrooms rest
    else singleBedrooms t ++ semanticBedrooms (t2 :: rest)

/-- Modelled from the spec: numeric amount tokens (spec section 4.1):
`<num>k` is num x 1000, `<num>m` is num x 1000000 (also with one decimal
digit, e.g. `1.5m`), a bare integer is itself. -/
def parseAmount (t : List Char) : Option ℕ :=
  let ds := t.takeWhile Char.isDigit
  let rest := t.drop ds.length
  if ds.isEmpty then none
  else
    let n := natOfDigits ds
    match rest with
    | [] => some n
    | ['k'] => some (n * 1000)
    | ['m'] => some (n * 1000000)
    | '.' :: rest2 =>
      match rest2 with
      | [d, 'k'] => if d.isDigit then some (n * 1000 + (d.toNat - 48) * 100) else none
      | [d, 'm'] => if d.isDigit then some (n * 1000000 + (d.toNat - 48) * 100000) else none
      | _ => none
    | _ => none

/-- A hyphenated amount pair token such as `600k-800k` ("X-Y" ranges). -/
def parseAmountRange (t : List Char) : Option (ℕ × ℕ) :=
  match splitDash t [] with
  | [a, b] =>
    match parseAmount a, parseAmount b with
    | some x, some y => some (x, y)
    | _, _ => none
  | _ => none

/-- An amount at the head of the token list, consuming a following
"million" multiplier ("1 million"); returns the value and the tokens
after it. -/
def amountAt (toks : List (List Char)) : Option (ℕ × List (List Char)) :=
  match toks with
  | [] => none
  | t :: rest =>
    match parseAmount t with
    | none => none
    | some n =>
      if rest.head? = some (tk "million") then some (n * 1000000, rest.tail)
      else some (n, rest)

/-- Do the tokens right after an amount mark it as square footage
("sqft", "sf", "square feet/foot") rather than price? -/
def sqftField (rest : List (List Char)) : Bool :=
  match rest with
  | [] => false
  | [t] => decide (t = tk "sqft" ∨ t = tk "sf")
  | t :: t2 :: _ =>
    decide (t = tk "sqft" ∨ t = tk "sf" ∨ (t = tk "square" ∧ (t2 = tk "feet" ∨ t2 = tk "foot")))

/-- The four optional bounds the interpreter accumulates. -/
structure QueryBounds where
  min_price : Option ℕ
  max_price : Option ℕ
  min_sqft : Option ℕ
  max_sqft : Option ℕ
deriving DecidableEq, Repr

def setMinPrice (acc : QueryBounds) (v : ℕ) : QueryBounds :=
  match acc.min_price with | none => { acc with min_price := some v } | some _ => acc

def setMaxPrice (acc : QueryBounds) (v : ℕ) : QueryBounds :=
  match acc.max_price with | none => { acc with max_price := some v } | some _ => acc

def setMinSqft (acc : QueryBounds) (v : ℕ) : QueryBounds :=
  match acc.min_sqft with | none => { acc with min_sqft := some v } | some _ => acc

def setMaxSqft (acc : QueryBounds) (v : ℕ) : QueryBounds :=
  match acc.max_sqft with | none => { acc with max_sqft := some v } | some _ => acc

/-- Tokens that introduce a comparison phrase; a bare "N sqft" right after
one of these belongs to that phrase and is not an independent bound. -/
def comparisonWord (t : List Char) : Bool :=
  decide (t ∈ [tk "under", tk "below", tk "less", tk "than", tk "over", tk "above",
               tk "more", tk "at", tk "least", tk "between", tk "and", tk "to"])

/-- Modelled from the spec: the numeric comparison-phrase layer of the
Query Interpreter (spec section 4.1): "under/below/less than X" gives a
max bound, "over/above/more than/at least X" a min bound,
"X to Y" / "X-Y" / "between X and Y" both bounds; whether the bound is a
price or a square-footage bound is decided by a following sqft marker.
The first phrase setting a field wins; a bare "N sqft" (outside a
comparison phrase) is taken as a minimum square footage.  The `prev`
argument carries the previous token. -/
def scanBounds : List (List Char) → Option (List Char) → QueryBounds → QueryBounds
  | [], _, acc => acc
  | t :: rest, prev, acc =>
    let acc2 :=
      if t = tk "under" ∨ t = tk "below" then
        match amountAt rest with
        | some (n, rest2) =>
          if sqftField rest2 then setMaxSqft acc n else setMaxPrice acc n
        | none => acc
      else if (t = tk "less" ∨ t = tk "more") ∧ rest.head? = some (tk "than") then
        match amountAt rest.tail with
        | some (n, rest2) =>
          if t = tk "less" then
            if sqftField rest2 then setMaxSqft acc n else setMaxPrice acc n
          else
            if sqftField rest2 then setMinSqft acc n else setMinPrice acc n
        | none => acc
      else if t = tk "over" ∨ t = tk "above" then
        match amountAt rest with
        | some (n, rest2) =>
          if sqftField rest2 then setMinSqft acc n else setMinPrice acc n
        | none => acc
      else if t = tk "at" ∧ rest.head? = some (tk "least") then
        match amountAt rest.tail with
        | some (n, rest2) =>
          if sqftField rest2 then setMinSqft acc n else setMinPrice acc n
        | none => acc
      else if t = tk "between" then
        match amountAt rest with
        | some (a, rest2) =>
          if rest2.head? = some (tk "and") then
            match amountAt rest2.tail with
            | some (b, rest3) =>
              if sqftField rest3 then setMaxSqft (setMinSqft acc a) b
              else setMaxPrice (setMinPrice acc a) b
            | none => acc
          else acc
        | none => acc
      else
        match parseAmountRange t with
        | some (a, b) =>
          if sqftField rest then setMaxSqft (setMinSqft acc a) b
          else setMaxPrice (setMinPrice acc a) b
        | none =>
          match parseAmount t with
          | some n =>
            if rest.head? = some (tk "to") then
              match amountAt rest.tail with
              | some (b, rest2) =>
                if sqftField rest2 then setMaxSqft (setMinSqft acc n) b
                else setMaxPrice (setMinPrice acc n) b
              | none => acc
            else if sqftField rest ∧ ¬(∃ p, prev = some p ∧ comparisonWord p) then
              setMinSqft acc n
            else acc
          | none => acc
    scanBounds rest (some t) acc2

/-- Modelled from the spec: the semantic price/size terms (spec section
4.1): "affordable" caps the price at 500000, "luxury"/"expensive" put the
floor at 1000000, "very spacious"/"huge" give min_sqft 2500 (the more
specific phrase winning over plain "spacious"), "spacious"/"large"/"big"
give min_sqft 1000, "compact"/"small"/"cozy" cap sqft at 1200.  Numeric
bounds already set are not overridden (explicit wins). -/
def semanticBounds : List (List Char) → Option (List Char) → QueryBounds → QueryBounds
  | [], _, acc => acc
  | t :: rest, prev, acc =>
    let acc2 :=
      if t = tk "affordable" then setMaxPrice acc 500000
      else if t = tk "luxury" ∨ t = tk "expensive" then setMinPrice acc 1000000
      else if t = tk "spacious" then
        if prev = some (tk "very") then setMinSqft acc 2500 else setMinSqft acc 1000
      else if t = tk "huge" then setMinSqft acc 2500
      else if t = tk "large" ∨ t = tk "big" then setMinSqft acc 1000
      else if t = tk "compact" ∨ t = tk "small" ∨ t = tk "cozy" then setMaxSqft acc 1200
      else acc
    semanticBounds rest (some t) acc2

/-- Adjacent pair of tokens somewhere in the list. -/
def hasBigram (a b : List Char) : List (List Char) → Bool
  | [] => false
  | [_] => false
  | t :: t2 :: rest => (decide (t = a ∧ t2 = b)) || hasBigram a b (t2 :: rest)

/-- Modelled from the spec: the sort keyword mapping (spec section 4.1):
recency words give `newest`; "most expensive"/"highest price"/"luxury"
give `price_desc`; "cheapest"/"lowest price"/"affordable" give
`price_asc`; otherwise `relevance`.  Note "luxury" and "affordable" drive
BOTH a price bound (above) and the sort here. -/
def sortOf (toks : List (List Char)) : SortMode :=
  if toks.any (fun t => decide (t = tk "new" ∨ t = tk "recent" ∨ t = tk "fresh" ∨ t = tk "hot"))
      || hasBigram (tk "just") (tk "listed") toks then .newest
  else if hasBigram (tk "most") (tk "expensive") toks
      || hasBigram (tk "highest") (tk "price") toks
      || toks.any (fun t => decide (t = tk "luxury")) then .price_desc
  else if toks.any (fun t => decide (t = tk "cheapest" ∨ t = tk "affordable"))
      || hasBigram (tk "lowest") (tk "price") toks then .price_asc
  else .relevance

/-- Filler words stripped from the residual text (spec section 4.1:
"strip filler like 'with', leading/trailing 'a'/'the'"; the prompt
document's examples also drop the connectives "and"/"or"). -/
def isFillerToken (t : List Char) : Bool :=
  decide (t ∈ [tk "with", tk "a", tk "the", tk "and", tk "or"])

/-- Modelled from the spec: the tokens consumed by the structured rules and
therefore removed from the residual text (spec section 4.1 and the prompt
document's examples: type keywords, explicit bedroom phrases, consumed
price/size/sort vocabulary, comparison words, amounts and unit markers are
removed; the semantic bedroom words "family"/"small"/"cozy" are kept in
the residual, as in the examples "Family home under 800k" with title
"Family" and "Small 1 or 2 bedroom ..." with title "Small"). -/
def consumedToken (toks : List (List Char)) (t : List Char) : Bool :=
  !(typesOfToken t).isEmpty ||
  bedroomMarker t ||
  (toks.any bedroomMarker && (digitBedroomValue t).isSome) ||
  decide (t ∈ [tk "affordable", tk "luxury", tk "expensive", tk "spacious", tk "huge",
               tk "large", tk "big", tk "very", tk "compact"]) ||
  decide (t ∈ [tk "new", tk "listing", tk "just", tk "listed", tk "recent", tk "fresh",
               tk "hot", tk "cheapest", tk "most", tk "highest", tk "lowest", tk "price"]) ||
  decide (t ∈ [tk "under", tk "below", tk "less", tk "than", tk "over", tk "above",
               tk "more", tk "at", tk "least", tk "between", tk "to", tk "million",
               tk "sqft", tk "sf", tk "square", tk "feet", tk "foot"]) ||
  (parseAmount t).isSome || (parseAmountRange t).isSome

/-- Modelled from the spec: the deterministic rule layer of the Query
Interpreter, `interpret(rawQuery)` (spec section 4.1): property types,
bedrooms (explicit digits winning over semantic terms), numeric then
semantic price/size bounds, sort keywords, and the residual text rendered
as title-cased `title` and lower-cased `description`. -/
def interpret (rawQuery : String) : InterpretedQuery :=
  let toks := queryTokens rawQuery
  let numeric := scanBounds toks none ⟨none, none, none, none⟩
  let bounds := semanticBounds toks none numeric
  let explicitBeds := if toks.any bedroomMarker then toks.filterMap digitBedroomValue else []
  let beds := if explicitBeds.isEmpty then (semanticBedrooms toks).dedup else explicitBeds.dedup
  let residual := (toks.filter fun t => !consumedToken toks t && !isFillerToken t)
  { title := ⟨titleCaseChars false (List.intercalate [' '] residual)⟩
    description := ⟨List.intercalate [' '] residual⟩
    property_type := ((toks.map typesOfToken).flatten).dedup
    bedrooms := beds
    min_price := bounds.min_price
    max_price := bounds.max_price
    min_sqft := bounds.min_sqft
    max_sqft := bounds.max_sqft
    sort := sortOf toks }

/-! ### Bucket interval tables (shared by the C2 and C8 theorems) -/

/-- Lower bound of the i-th price bucket. -/
def priceLo : Fin 5 → ℕ
  | 0 => 0
  | 1 => 500000
  | 2 => 750000
  | 3 => 1000000
  | 4 => 1500000

/-- Upper bound of the i-th price bucket (`none` for the open-ended last). -/
def priceHi : Fin 5 → Option ℕ
  | 0 => some 500000
  | 1 => some 750000
  | 2 => some 1000000
  | 3 => some 1500000
  | 4 => none

/-- Lower bound of the i-th square-footage bucket. -/
def sqftLo : Fin 5 → ℕ
  | 0 => 0
  | 1 => 800
  | 2 => 1200
  | 3 => 1800
  | 4 => 2500

/-- Upper bound of the i-th square-footage bucket. -/
def sqftHi : Fin 5 → Option ℕ
  | 0 => some 800
  | 1 => some 1200
  | 2 => some 1800
  | 3 => some 2500
  | 4 => none

/-- Membership of a price in the i-th bucket interval: inclusive at the
low end, exclusive at the high end, the last bucket open-ended. -/
def inPriceBucket (i : Fin 5) (p : ℕ) : Bool :=
  decide (priceLo i ≤ p) &&
  match priceHi i with
  | some h => decide (p < h)
  | none => true

/-- Membership of a square footage in the i-th bucket interval. -/
def inSqftBucket (i : Fin 5) (s : ℕ) : Bool :=
  decide (sqftLo i ≤ s) &&
  match sqftHi i with
  | some h => decide (s < h)
  | none => true

/-- The i-th price key of `availablePriceRanges`. -/
def priceKey : Fin 5 → String
  | 0 => "0-500000"
  | 1 => "500000-750000"
  | 2 => "750000-1000000"
  | 3 => "1000000-1500000"
  | 4 => "1500000-999999999"

/-- The i-th square-footage key of `availableSqftRanges`. -/
def sqftKey : Fin 5 → String
  | 0 => "0-800"
  | 1 => "800-1200"
  | 2 => "1200-1800"
  | 3 => "1800-2500"
  | 4 => "2500-999999"

/-- The upper price bound `priceHi` as the JS number used by the overlap test. -/
def priceHiJ (i : Fin 5) : JNum :=
  match priceHi i with
  | some h => .num h
  | none => .inf

/-- The upper sqft bound `sqftHi` as the JS number used by the overlap test. -/
def sqftHiJ (i : Fin 5) : JNum :=
  match sqftHi i with
  | some h => .num h
  | none => .inf

/-! ### Claim theorems -/

/-- C1: the spec and the agent-prompt document state that the `q` parameter
always holds the user's exact input with case preserved; the submission
handler instead sets `q = query.toLowerCase().trim()`.  Evaluating the
embedded `handleSearch` at the input "Affordable apartment" shows `q`
comes out lower-cased, contradicting the documented invariant. -/
theorem handleSearch_q_lowercased :
    (handleSearch "Affordable apartment").q = some "affordable apartment" ∧
    "affordable apartment" ≠ "Affordable apartment" := by
  constructor
  · rfl
  · decide

/-- C3: interpreting "Affordable apartment" yields property_type
{apartment}, max_price 500000, sort price_asc and empty title and
description; the single token "affordable" drives both the price bound and
the sort, and both are applied. -/
theorem interpret_affordable_apartment :
    interpret "Affordable apartment" =
      { title := "", description := "", property_type := [.apartment], bedrooms := []
        min_price := none, max_price := some 500000, min_sqft := none, max_sqft := none
        sort := .price_asc } := by
  decide

/-- The spec's "Family home under 800k" scenario, as a sanity check of the
modelled rule layer. -/
theorem interpret_family_home_scenario :
    interpret "Family home under 800k" =
      { title := "Family", description := "family", property_type := [.house, .townhouse]
        bedrooms := [3, 4, 5], min_price := none, max_price := some 800000
        min_sqft := none, max_sqft := none, sort := .relevance } := by
  decide

/-- The spec's "New listing downtown condo" scenario, as a sanity check of
the modelled rule layer. -/
theorem interpret_new_listing_scenario :
    interpret "New listing downtown condo" =
      { title := "Downtown", description := "downtown", property_type := [.condo]
        bedrooms := [], min_price := none, max_price := none
        min_sqft := none, max_sqft := none, sort := .newest } := by
  decide

/-- C4: pagination is 1-based and never errors past the end: any page whose
slice start is at or beyond the list length yields `[]`, and for a list of
29 matches with per_page 10, page 3 has exactly 9 results and page 4 is
empty. -/
theorem paginate_beyond_end_empty :
    (∀ {α : Type} (l : List α) (page per_page : ℕ),
        l.length ≤ (page - 1) * per_page → paginate l page per_page = []) ∧
    (∀ {α : Type} (l : List α), l.length = 29 →
        (paginate l 3 10).length = 9 ∧ paginate l 4 10 = []) := by
  constructor
  · intro α l page per_page h
    unfold paginate
    rw [List.drop_eq_nil_of_le h, List.take_nil]
  · intro α l h
    constructor
    · unfold paginate
      rw [List.length_take, List.length_drop, h]
      rfl
    · unfold paginate
      rw [List.drop_eq_nil_of_le (by omega), List.take_nil]

/-- Witness for C4 at a concrete 29-element list. -/
theorem paginate_beyond_end_empty_witness :
    (paginate (List.range 29) 3 10).length = 9 ∧
    paginate (List.range 29) 4 10 = [] ∧
    paginate (List.range 29) 6 7 = [] :=
  ⟨(paginate_beyond_end_empty.2 (List.range 29) (by simp)).1,
   (paginate_beyond_end_empty.2 (List.range 29) (by simp)).2,
   paginate_beyond_end_empty.1 (List.range 29) 6 7 (by simp)⟩

/-- No constraining field of `SearchParameters` is set (the raw `q`, the
sort and the paging fields are not constraints). -/
def noConstraints (params : SearchParameters) : Prop :=
  params.property_type = [] ∧ params.bedrooms = [] ∧
  params.min_price = none ∧ params.max_price = none ∧
  params.min_sqft = none ∧ params.max_sqft = none ∧
  params.title = "" ∧ params.description = ""

/-- C5: with no constraint set, the Filter Engine is the identity on the
catalog (same contents, same order); and in general its result is a
sublist of the catalog, so catalog order is preserved before sorting. -/
theorem filter_no_constraints_identity :
    (∀ (catalog : List Property) (params : SearchParameters),
        noConstraints params → filterCatalog catalog params = catalog) ∧
    (∀ (catalog : List Property) (params : SearchParameters),
        List.Sublist (filterCatalog catalog params) catalog) := by
  constructor
  · intro catalog params h
    obtain ⟨h1, h2, h3, h4, h5, h6, h7, h8⟩ := h
    apply List.filter_eq_self.mpr
    intro p _
    simp [matchesParams, matchesText, h1, h2, h3, h4, h5, h6, h7, h8, wordTokens, tokensAux]
  · intro catalog params
    exact List.filter_sublist catalog

/-- A sample fixture property for the witnesses. -/
def sampleProperty : Property :=
  { id := "prop-001"
    title := "Charming Victorian Family Home with Bay Views"
    description := "Perfect family home in quiet neighborhood."
    price := 750000
    bedrooms := 3
    square_feet := 1850
    property_type := .house
    listing_date := "2024-11-13"
    images := []
    neighborhood := "Mission District"
    city := "San Francisco" }

/-- Search parameters with only `q`/sort/paging set. -/
def unconstrainedParams : SearchParameters :=
  { q := "Affordable apartment", title := "", description := ""
    property_type := [], bedrooms := []
    min_price := none, max_price := none, min_sqft := none, max_sqft := none
    sort := .relevance, page := 1, per_page := 10 }

/-- Witness for C5 on a one-property catalog. -/
theorem filter_no_constraints_identity_witness :
    filterCatalog [sampleProperty] unconstrainedParams = [sampleProperty] :=
  filter_no_constraints_identity.1 [sampleProperty] unconstrainedParams
    ⟨rfl, rfl, rfl, rfl, rfl, rfl, rfl, rfl⟩

/-- Every element falls in exactly one of the five classes of a
`Fin 5`-valued classifier, so the five class counts sum to the length. -/
theorem countP_fin5_partition {α : Type} (f : α → Fin 5) (l : List α) :
    l.countP (fun a => decide (f a = 0)) + l.countP (fun a => decide (f a = 1)) +
    l.countP (fun a => decide (f a = 2)) + l.countP (fun a => decide (f a = 3)) +
    l.countP (fun a => decide (f a = 4)) = l.length := by
  induction l with
  | nil => rfl
  | cons a l ih =>
    simp only [List.countP_cons, List.length_cons]
    generalize f a = x
    fin_cases x <;> simp <;> omega

/-- Every property has exactly one property type, so the four type counts
sum to the length. -/
theorem countP_ptype_partition (l : List Property) :
    l.countP (fun p => decide (p.property_type = .house)) +
    l.countP (fun p => decide (p.property_type = .condo)) +
    l.countP (fun p => decide (p.property_type = .apartment)) +
    l.countP (fun p => decide (p.property_type = .townhouse)) = l.length := by
  induction l with
  | nil => rfl
  | cons a l ih =>
    simp only [List.countP_cons, List.length_cons]
    rcases a.property_type <;> simp <;> omega

/-- C6: over any match subset, the facet counts of each mutually exclusive
and exhaustive dimension sum to the subset's size: the four property-type
counts, the five price-bucket counts and the five square-footage-bucket
counts each add up to the number of matches. -/
theorem facet_counts_sum (ms : List Property) :
    ((aggregate ms).property_type .house + (aggregate ms).property_type .condo +
      (aggregate ms).property_type .apartment + (aggregate ms).property_type .townhouse
      = ms.length) ∧
    ((aggregate ms).price_ranges 0 + (aggregate ms).price_ranges 1 +
      (aggregate ms).price_ranges 2 + (aggregate ms).price_ranges 3 +
      (aggregate ms).price_ranges 4 = ms.length) ∧
    ((aggregate ms).square_feet_ranges 0 + (aggregate ms).square_feet_ranges 1 +
      (aggregate ms).square_feet_ranges 2 + (aggregate ms).square_feet_ranges 3 +
      (aggregate ms).square_feet_ranges 4 = ms.length) := by
  refine ⟨countP_ptype_partition ms, ?_, ?_⟩
  · exact countP_fin5_partition (fun p => priceBucketIndex p.price) ms
  · exact countP_fin5_partition (fun p => sqftBucketIndex p.square_feet) ms

/-- C7: when the optional summary call errors, the already-delivered search
results, total and facets are untouched, the summary is left empty
(`null`), and no user-facing error is set — the catch branch only logs and
clears the summary. -/
theorem summary_failure_keeps_results (st : PageState) (resp : SearchResponse) (msg : String) :
    (performSearchSuccess st resp true (.error msg)).searchResults = some resp ∧
    (performSearchSuccess st resp true (.error msg)).facets = some resp.facets ∧
    (performSearchSuccess st resp true (.error msg)).summary = none ∧
    (performSearchSuccess st resp true (.error msg)).error = none := by
  refine ⟨rfl, rfl, rfl, rfl⟩

/-- C9: at each interior bucket boundary b (which is the exclusive upper
bound of one bucket and the inclusive lower bound of the next), the
overlap test is strict on both sides, so `getSelectedPriceRanges b b`
selects nothing. -/
theorem boundary_price_selects_nothing :
    getSelectedPriceRanges (some 500000) (some 500000) = [] ∧
    getSelectedPriceRanges (some 750000) (some 750000) = [] ∧
    getSelectedPriceRanges (some 1000000) (some 1000000) = [] ∧
    getSelectedPriceRanges (some 1500000) (some 1500000) = [] := by
  decide

/-- C2: the bucket boundaries are fixed.  First, the five price keys and
five square-footage keys parse (by the code's own `parsePriceRange` /
`parseSqftRange`) to exactly the documented bounds, the last open-ended.
Second, for the spec-modelled aggregation side every price/sqft value lies
in the bucket the aggregator assigns it, and in no other: the intervals
are inclusive-low, exclusive-high, the last open-ended, and they tile ℕ.
-/
theorem bucket_boundaries_fixed :
    (availablePriceRanges.map parsePriceRange =
      [(.num 0, some (.num 500000)), (.num 500000, some (.num 750000)),
       (.num 750000, some (.num 1000000)), (.num 1000000, some (.num 1500000)),
       (.num 1500000, none)]) ∧
    (availableSqftRanges.map parseSqftRange =
      [(.num 0, some (.num 800)), (.num 800, some (.num 1200)),
       (.num 1200, some (.num 1800)), (.num 1800, some (.num 2500)),
       (.num 2500, none)]) ∧
    (∀ p : ℕ, inPriceBucket (priceBucketIndex p) p = true ∧
        ∀ i : Fin 5, inPriceBucket i p = true → i = priceBucketIndex p) ∧
    (∀ s : ℕ, inSqftBucket (sqftBucketIndex s) s = true ∧
        ∀ i : Fin 5, inSqftBucket i s = true → i = sqftBucketIndex s) := by
  refine ⟨by decide, by decide, ?_, ?_⟩
  · intro p
    constructor
    · unfold priceBucketIndex
      split_ifs <;> simp [inPriceBucket, priceLo, priceHi] <;> omega
    · intro i hi
      unfold priceBucketIndex
      fin_cases i <;> simp [inPriceBucket, priceLo, priceHi] at hi <;>
        split_ifs <;> first | rfl | (exfalso; omega)
  · intro s
    constructor
    · unfold sqftBucketIndex
      split_ifs <;> simp [inSqftBucket, sqftLo, sqftHi] <;> omega
    · intro i hi
      unfold sqftBucketIndex
      fin_cases i <;> simp [inSqftBucket, sqftLo, sqftHi] at hi <;>
        split_ifs <;> first | rfl | (exfalso; omega)

/-- Witness for C2: the interval membership and uniqueness applied at
concrete prices and square footages. -/
theorem bucket_boundaries_fixed_witness :
    priceBucketIndex 800000 = 2 ∧ sqftBucketIndex 1500 = 2 :=
  ⟨(bucket_boundaries_fixed.2.2.1 800000).2 2 (by decide),
   (bucket_boundaries_fixed.2.2.2 1500).2 2 (by decide)⟩

/-- Order on the upper bucket bounds, `Infinity` on top. -/
def hiLe : JNum → JNum → Bool
  | _, .inf => true
  | .num a, .num b => decide (a ≤ b)
  | _, _ => false

theorem jlt_num_of_le {a b : ℕ} (M : JNum) (h : a ≤ b) :
    jlt (.num b) M = true → jlt (.num a) M = true := by
  cases M <;> simp [jlt] <;> omega

theorem jlt_of_hiLe {x h1 h2 : JNum} (hle : hiLe h1 h2 = true) :
    jlt x h1 = true → jlt x h2 = true := by
  cases x <;> cases h1 <;> cases h2 <;> simp_all [jlt, hiLe] <;> omega

theorem priceLo_mono : ∀ i j : Fin 5, i ≤ j → priceLo i ≤ priceLo j := by decide

theorem priceHiJ_mono : ∀ i j : Fin 5, i ≤ j → hiLe (priceHiJ i) (priceHiJ j) = true := by decide

theorem sqftLo_mono : ∀ i j : Fin 5, i ≤ j → sqftLo i ≤ sqftLo j := by decide

theorem sqftHiJ_mono : ∀ i j : Fin 5, i ≤ j → hiLe (sqftHiJ i) (sqftHiJ j) = true := by decide

theorem keyBounds_price :
    ∀ i : Fin 5, keyBounds "999999999".data (priceKey i) = (.num (priceLo i), priceHiJ i) := by
  decide

theorem keyBounds_sqft :
    ∀ i : Fin 5, keyBounds "999999".data (sqftKey i) = (.num (sqftLo i), sqftHiJ i) := by
  decide

theorem priceKey_mem : ∀ i : Fin 5, priceKey i ∈ availablePriceRanges := by decide

theorem sqftKey_mem : ∀ i : Fin 5, sqftKey i ∈ availableSqftRanges := by decide

/-- C8: the selected bucket list is a contiguous run of the fixed ordered
bucket list: whenever the i-th and k-th keys are selected and i ≤ j ≤ k,
the j-th key is selected too, because selection is overlap with the single
interval [min, max] and the bucket bounds are monotone in the position. -/
theorem selected_ranges_contiguous (mn mx : Option ℕ)
    (hord : ∀ a b, mn = some a → mx = some b → a ≤ b) :
    (∀ i j k : Fin 5, i ≤ j → j ≤ k →
        priceKey i ∈ getSelectedPriceRanges mn mx →
        priceKey k ∈ getSelectedPriceRanges mn mx →
        priceKey j ∈ getSelectedPriceRanges mn mx) ∧
    (∀ i j k : Fin 5, i ≤ j → j ≤ k →
        sqftKey i ∈ getSelectedSqftRanges mn mx →
        sqftKey k ∈ getSelectedSqftRanges mn mx →
        sqftKey j ∈ getSelectedSqftRanges mn mx) := by
  constructor
  · intro i j k hij hjk hi hk
    unfold getSelectedPriceRanges at hi hk ⊢
    by_cases hg : mn = none ∧ mx = none
    · rw [if_pos hg] at hi
      simp at hi
    · rw [if_neg hg] at hi hk ⊢
      have hpi := List.of_mem_filter hi
      have hpk := List.of_mem_filter hk
      rw [keyBounds_price] at hpi hpk
      apply List.mem_filter.mpr
      refine ⟨priceKey_mem j, ?_⟩
      rw [keyBounds_price]
      simp only [rangeSelected, Bool.and_eq_true] at hpi hpk ⊢
      exact ⟨jlt_num_of_le _ (priceLo_mono j k hjk) hpk.1,
             jlt_of_hiLe (priceHiJ_mono i j hij) hpi.2⟩
  · intro i j k hij hjk hi hk
    unfold getSelectedSqftRanges at hi hk ⊢
    by_cases hg : mn = none ∧ mx = none
    · rw [if_pos hg] at hi
      simp at hi
    · rw [if_neg hg] at hi hk ⊢
      have hpi := List.of_mem_filter hi
      have hpk := List.of_mem_filter hk
      rw [keyBounds_sqft] at hpi hpk
      apply List.mem_filter.mpr
      refine ⟨sqftKey_mem j, ?_⟩
      rw [keyBounds_sqft]
      simp only [rangeSelected, Bool.and_eq_true] at hpi hpk ⊢
      exact ⟨jlt_num_of_le _ (sqftLo_mono j k hjk) hpk.1,
             jlt_of_hiLe (sqftHiJ_mono i j hij) hpi.2⟩

/-- Witness for C8 at concrete bounds: with buckets 1 and 3 selected,
bucket 2 is selected. -/
theorem selected_ranges_contiguous_witness :
    priceKey 2 ∈ getSelectedPriceRanges (some 600000) (some 1100000) ∧
    sqftKey 2 ∈ getSelectedSqftRanges (some 900) (some 2000) := by
  constructor
  · refine (selected_ranges_contiguous (some 600000) (some 1100000) ?_).1
      1 2 3 (by decide) (by decide) (by decide) (by decide)
    intro a b ha hb
    simp only [Option.some.injEq] at ha hb
    omega
  · refine (selected_ranges_contiguous (some 900) (some 2000) ?_).2
      1 2 3 (by decide) (by decide) (by decide) (by decide)
    intro a b ha hb
    simp only [Option.some.injEq] at ha hb
    omega
